import Mathlib

/-!
Shallow embedding of the PIVEN repository core under verification:
src/src/piven/wrappers.py (PivenModelWrapper.fit target-shape handling and
PivenModelWrapper.predict interval blending) and src/src/piven/models/base.py
(PivenBaseModel fit/predict/save lifecycle and the score hyperparameter
plumbing). Array entries are modelled as rationals; numpy arrays whose shape
matters are modelled by NDArray (shape vector plus row-major data).
-/

namespace Piven

/-- Runtime error conditions of the embedded code. valueError models the
ValueError raised for an incompatible target shape (the IncompatibleShape
condition of the spec), notFittedError models sklearn NotFittedError,
attributeError models the Python AttributeError raised by attribute access on
None, and invalidHyperparameter models the InvalidHyperparameter condition of
the spec. -/
inductive PyError where
  | valueError
  | notFittedError
  | attributeError
  | invalidHyperparameter
  deriving DecidableEq

/-- Model of a numpy ndarray: a shape vector and the row-major data. -/
structure NDArray where
  shape : List ℕ
  data : List ℚ
  deriving DecidableEq

/-- Model of np.stack((a, a), axis=1): the shape gains a new axis of size 2 at
position 1. The data layout duplicates each element in place, which is the
row-major layout whenever the axes after the first multiply to 1; both call
sites in PivenModelWrapper.fit apply this to arrays of shape [n, 1]. -/
def stackDupAxis1 (a : NDArray) : NDArray :=
  { shape := [a.shape.headD 0, 2] ++ a.shape.tail,
    data := a.data.flatMap (fun x => [x, x]) }

/-- Target-shape handling at the top of PivenModelWrapper.fit: a rank-1 target
is reshaped to a column (for a rank-1 array of shape [n] the length is n, so
reshape(-1, 1) yields shape [n, 1]) and stacked with itself along axis 1; a
rank-2 target whose last axis has size 1 is stacked with itself along axis 1;
any other rank-2 target falls through unchanged; any other rank raises
ValueError. -/
def checkYShape (y : NDArray) : Except PyError NDArray :=
  match y.shape with
  | [n] => .ok (stackDupAxis1 { shape := [n, 1], data := y.data })
  | [_, m] => if m = 1 then .ok (stackDupAxis1 y) else .ok y
  | _ => .error .valueError

/-- PivenModelWrapper.fit: the target-shape handling runs first; only when it
succeeds is the model built and model.fit called on the adjusted target. The
model builder and the keras fit call are external collaborators, abstracted
together as buildFit. -/
def wrapperFit {α : Type} (buildFit : NDArray → α) (y : NDArray) :
    Except PyError α :=
  match checkYShape y with
  | .error e => .error e
  | .ok y2 => .ok (buildFit y2)

/-- Column 0 of the raw model output, yhat[:, 0], named y_upper_pred in the
source. Rows of the raw [N, 3] output are modelled as triples whose components
are the columns in order 0, 1, 2. -/
def yUpperPred (yhat : List (ℚ × ℚ × ℚ)) : List ℚ := yhat.map (fun r => r.1)

/-- Column 1 of the raw model output, yhat[:, 1], named y_lower_pred. -/
def yLowerPred (yhat : List (ℚ × ℚ × ℚ)) : List ℚ := yhat.map (fun r => r.2.1)

/-- Column 2 of the raw model output, yhat[:, 2], named y_value_pred. -/
def yValuePred (yhat : List (ℚ × ℚ × ℚ)) : List ℚ := yhat.map (fun r => r.2.2)

/-- Elementwise y_out = y_value_pred * y_upper_pred
+ (1 - y_value_pred) * y_lower_pred, the vectorized arithmetic of
PivenModelWrapper.predict. -/
def yOut (yhat : List (ℚ × ℚ × ℚ)) : List ℚ :=
  List.zipWith (fun a b => a + b)
    (List.zipWith (fun a b => a * b) (yValuePred yhat) (yUpperPred yhat))
    (List.zipWith (fun a b => a * b)
      ((yValuePred yhat).map (fun v => 1 - v)) (yLowerPred yhat))

/-- Scalar blend v * u + (1 - v) * l, the per-element formula computed by
yOut. -/
def blendPoint (v u l : ℚ) : ℚ := v * u + (1 - v) * l

/-- Result of PivenModelWrapper.predict: either the triple
(point, lower, upper) or the point estimate alone. -/
inductive PredictResult where
  | withIntervals (point lower upper : List ℚ)
  | pointOnly (point : List ℚ)
  deriving DecidableEq

/-- PivenModelWrapper.predict after the keras model produced the raw output
yhat; flatten on a one-dimensional array is the identity and is omitted. -/
def wrapperPredict (yhat : List (ℚ × ℚ × ℚ))
    (returnPredictionIntervals : Bool) : PredictResult :=
  if returnPredictionIntervals then
    .withIntervals (yOut yhat) (yLowerPred yhat) (yUpperPred yhat)
  else
    .pointOnly (yOut yhat)

/-- PivenBaseModel.predict: raises NotFittedError when self.model is None,
otherwise delegates to the wrapper predict on the raw output of the fitted
model, modelled as a function from features to raw rows. -/
def basePredict {α : Type} (model : Option (α → List (ℚ × ℚ × ℚ))) (x : α)
    (returnPredictionIntervals : Bool) : Except PyError PredictResult :=
  match model with
  | none => .error .notFittedError
  | some m => .ok (wrapperPredict (m x) returnPredictionIntervals)

/-- PivenBaseModel.fit: calls self.model.fit with no fitted-state check; when
self.model is None the attribute access on None raises AttributeError. -/
def baseFit {M X Y R : Type} (model : Option M) (fitImpl : M → X → Y → R)
    (x : X) (y : Y) : Except PyError R :=
  match model with
  | none => .error .attributeError
  | some m => .ok (fitImpl m x y)

/-- File-system effects of PivenBaseModel.save, in program order. -/
inductive SaveEffect (M P : Type) where
  | writeExperimentParamsJson (params : P)
  | saveModelFiles (model : M)

/-- PivenBaseModel.save: raises NotFittedError when self.model is None, and
that check precedes both writes; otherwise it writes experiment_params.json
and then the model files. The value is the write trace in program order
together with the outcome. -/
def baseSave {M P : Type} (model : Option M) (params : P) :
    List (SaveEffect M P) × Except PyError Unit :=
  match model with
  | none => ([], .error .notFittedError)
  | some m => ([.writeExperimentParamsJson params, .saveModelFiles m], .ok ())

/-- The entries of the model hyperparameter dictionary self.params that the
spec says parameterize the loss; each may be absent, matching dict.get
returning None. -/
structure ModelParams where
  lambda_ : Option ℚ
  soften : Option ℚ
  alpha : Option ℚ
  deriving DecidableEq

/-- The loss entry of PivenBaseModel.score: piven_loss is invoked with
self.params.get lambda_ and the literal constants 160.0 and 0.05 as the
soften and alpha arguments. The numpy loss body lives outside src and is
abstracted as the argument pivenLoss. -/
def scoreLoss {L : Type}
    (pivenLoss : List ℚ → List ℚ → List ℚ → List ℚ → Option ℚ → ℚ → ℚ → L)
    (params : ModelParams) (yTrue yPred yPiLow yPiHigh : List ℚ) : L :=
  pivenLoss yTrue yPred yPiLow yPiHigh params.lambda_ 160 (1 / 20)

/-- Validated PIVEN loss hyperparameters. -/
structure LossEngine where
  lambda_ : ℚ
  soften : ℚ
  alpha : ℚ
  deriving DecidableEq

/-- Modelled from the spec: the loss-construction code (piven/loss.py and the
piven.metrics modules imported by src/src/piven/models/base.py) is not under
src. Per spec section 7, loss construction validates eagerly and raises
InvalidHyperparameter when alpha lies outside the open interval (0, 1), when
soften is non-positive or non-finite, or when lambda_ is missing; rationals
carry no non-finite values, so the finiteness condition is vacuous here. -/
def mkLossEngine (lambda_ : Option ℚ) (soften alpha : ℚ) :
    Except PyError LossEngine :=
  if 0 < alpha ∧ alpha < 1 then
    if 0 < soften then
      match lambda_ with
      | some lam => .ok { lambda_ := lam, soften := soften, alpha := alpha }
      | none => .error .invalidHyperparameter
    else .error .invalidHyperparameter
  else .error .invalidHyperparameter

/-- Helper: the vectorized yOut arithmetic equals the per-row blend. -/
theorem yOut_eq_map (yhat : List (ℚ × ℚ × ℚ)) :
    yOut yhat = yhat.map (fun r => blendPoint r.2.2 r.1 r.2.1) := by
  induction yhat with
  | nil => rfl
  | cons r t ih =>
      simp only [yOut, yUpperPred, yLowerPred, yValuePred, List.map_cons,
        List.zipWith_cons_cons, blendPoint, List.cons.injEq] at ih ⊢
      exact ⟨trivial, ih⟩

/-- Helper: on a rank-1 target of shape [n], checkYShape produces the array
of shape [n, 2, 1] holding every entry duplicated in place. -/
theorem checkYShape_eq_flat (y : NDArray) (n : ℕ) (h : y.shape = [n]) :
    checkYShape y =
      .ok { shape := [n, 2, 1], data := y.data.flatMap (fun x => [x, x]) } := by
  simp [checkYShape, h, stackDupAxis1]

/-- Helper: on a rank-2 target of shape [n, 1], checkYShape produces the array
of shape [n, 2, 1] holding every entry duplicated in place. -/
theorem checkYShape_eq_col (y : NDArray) (n : ℕ) (h : y.shape = [n, 1]) :
    checkYShape y =
      .ok { shape := [n, 2, 1], data := y.data.flatMap (fun x => [x, x]) } := by
  simp [checkYShape, h, stackDupAxis1]

/-- Helper: a rank-2 target whose last axis is not 1 passes through
unchanged. -/
theorem checkYShape_eq_pass (y : NDArray) (n m : ℕ) (h : y.shape = [n, m])
    (hm : m ≠ 1) : checkYShape y = .ok y := by
  simp [checkYShape, h, hm]

/-- Helper: a target whose rank is neither 1 nor 2 raises ValueError. -/
theorem checkYShape_eq_err (y : NDArray) (h1 : y.shape.length ≠ 1)
    (h2 : y.shape.length ≠ 2) : checkYShape y = .error .valueError := by
  match hy : y.shape with
  | [] => simp [checkYShape, hy]
  | [n] => rw [hy] at h1; simp at h1
  | [n, m] => rw [hy] at h2; simp at h2
  | a :: b :: c :: rest => simp [checkYShape, hy]

/-- Claim C1: wrapperPredict splits the raw [N, 3] output by fixed channel
order into y_upper (column 0), y_lower (column 1) and v (column 2), computes
the point estimate v * y_upper + (1 - v) * y_lower elementwise, and when
intervals are requested returns the triple (point, lower, upper) with the
bounds returned unchanged. -/
theorem wrapperPredict_channel_blend (yhat : List (ℚ × ℚ × ℚ)) :
    wrapperPredict yhat true =
      PredictResult.withIntervals
        (yhat.map (fun r => blendPoint r.2.2 r.1 r.2.1))
        (yhat.map (fun r => r.2.1))
        (yhat.map (fun r => r.1)) ∧
    wrapperPredict yhat false =
      PredictResult.pointOnly (yhat.map (fun r => blendPoint r.2.2 r.1 r.2.1)) := by
  constructor <;>
    simp [wrapperPredict, yOut_eq_map, yLowerPred, yUpperPred]

/-- Claim C2: whenever lower ≤ upper and the blending weight v lies in [0, 1],
the blended point estimate lies between lower and upper; in particular
upper = 10, lower = 2, v = 0.3 gives the point 4.4. -/
theorem blendPoint_bounds (u l v : ℚ) (hlu : l ≤ u) (h0 : 0 ≤ v)
    (h1 : v ≤ 1) :
    l ≤ blendPoint v u l ∧ blendPoint v u l ≤ u ∧
      blendPoint (3 / 10) 10 2 = 22 / 5 := by
  refine ⟨?_, ?_, ?_⟩
  · unfold blendPoint; nlinarith
  · unfold blendPoint; nlinarith
  · norm_num [blendPoint]

/-- Witness for C2 at upper = 10, lower = 2, v = 0.3. -/
theorem blendPoint_bounds_witness :
    (2 : ℚ) ≤ blendPoint (3 / 10) 10 2 ∧ blendPoint (3 / 10) 10 2 ≤ 10 ∧
      blendPoint (3 / 10) 10 2 = 22 / 5 :=
  blendPoint_bounds 10 2 (3 / 10) (by norm_num) (by norm_num) (by norm_num)

/-- Counterexample to claim C3 as stated: a rank-2 target with three columns
is neither flat nor two-column, yet the normalizer accepts it unchanged
instead of rejecting it. -/
theorem checkYShape_accepts_three_columns :
    checkYShape { shape := [1, 3], data := [5, 6, 7] } =
      .ok { shape := [1, 3], data := [5, 6, 7] } := rfl

/-- Claim C3 amended: the normalizer maps a flat length-n target and a
single-column [n, 1] target to an array of shape [n, 2, 1] holding the target
duplicated pairwise (a (target, target) pair per row along a new axis), passes
every other rank-2 target through unchanged whatever its column count, and
rejects exactly the targets whose rank is neither 1 nor 2 with the
IncompatibleShape ValueError. -/
theorem checkYShape_cases (y : NDArray) :
    (∀ n, y.shape = [n] →
      checkYShape y =
        .ok { shape := [n, 2, 1],
              data := y.data.flatMap (fun x => [x, x]) }) ∧
    (∀ n, y.shape = [n, 1] →
      checkYShape y =
        .ok { shape := [n, 2, 1],
              data := y.data.flatMap (fun x => [x, x]) }) ∧
    (∀ n m, y.shape = [n, m] → m ≠ 1 → checkYShape y = .ok y) ∧
    (y.shape.length ≠ 1 → y.shape.length ≠ 2 →
      checkYShape y = .error .valueError) :=
  ⟨fun n h => checkYShape_eq_flat y n h,
   fun n h => checkYShape_eq_col y n h,
   fun n m h hm => checkYShape_eq_pass y n m h hm,
   fun h1 h2 => checkYShape_eq_err y h1 h2⟩

/-- Witness for C3 amended, covering all four branches at concrete inputs. -/
theorem checkYShape_cases_witness :
    checkYShape { shape := [2], data := [3, 4] } =
      .ok { shape := [2, 2, 1], data := [3, 3, 4, 4] } ∧
    checkYShape { shape := [2, 1], data := [3, 4] } =
      .ok { shape := [2, 2, 1], data := [3, 3, 4, 4] } ∧
    checkYShape { shape := [2, 2], data := [3, 4, 5, 6] } =
      .ok { shape := [2, 2], data := [3, 4, 5, 6] } ∧
    checkYShape { shape := [1, 1, 1], data := [3] } = .error PyError.valueError :=
  ⟨(checkYShape_cases _).1 2 rfl,
   (checkYShape_cases _).2.1 2 rfl,
   (checkYShape_cases _).2.2.1 2 2 rfl (by decide),
   (checkYShape_cases _).2.2.2 (by decide) (by decide)⟩

/-- Counterexample to claim C4 as stated: normalizing the flat target
[1, 2, 3] yields the rank-3 array of shape [3, 2, 1], and feeding that result
back through the normalizer raises the shape ValueError instead of being a
no-op. -/
theorem checkYShape_twice_flat_errors :
    checkYShape { shape := [3], data := [1, 2, 3] } =
      .ok { shape := [3, 2, 1], data := [1, 1, 2, 2, 3, 3] } ∧
    Except.bind (checkYShape { shape := [3], data := [1, 2, 3] }) checkYShape =
      .error PyError.valueError := ⟨rfl, rfl⟩

/-- Claim C4 amended: the normalizer is not idempotent on flat targets, since
a flat length-n target becomes a rank-3 array of shape [n, 2, 1] which the
normalizer then rejects with ValueError; the normalizer is idempotent only on
rank-2 targets whose last axis is not 1 (in particular two-column targets),
which pass through unchanged both times. -/
theorem checkYShape_not_idempotent (y : NDArray) :
    (∀ n, y.shape = [n] →
      Except.bind (checkYShape y) checkYShape = .error .valueError) ∧
    (∀ n m, y.shape = [n, m] → m ≠ 1 →
      Except.bind (checkYShape y) checkYShape = .ok y) := by
  constructor
  · intro n h
    rw [checkYShape_eq_flat y n h]
    exact checkYShape_eq_err
      { shape := [n, 2, 1], data := y.data.flatMap (fun x => [x, x]) }
      (by simp) (by simp)
  · intro n m h hm
    rw [checkYShape_eq_pass y n m h hm]
    exact checkYShape_eq_pass y n m h hm

/-- Witness for C4 amended at a flat target and at a two-column target. -/
theorem checkYShape_not_idempotent_witness :
    Except.bind (checkYShape { shape := [2], data := [7, 8] }) checkYShape =
      .error PyError.valueError ∧
    Except.bind (checkYShape { shape := [1, 2], data := [7, 8] }) checkYShape =
      .ok { shape := [1, 2], data := [7, 8] } :=
  ⟨(checkYShape_not_idempotent _).1 2 rfl,
   (checkYShape_not_idempotent _).2 1 2 rfl (by decide)⟩

/-- Counterexample to claim C5 as stated: the target of shape [2, 3] is
neither flat nor two-column, yet no error is raised and it is handed to the
model builder unchanged, so the rejection is not an if-and-only-if over the
two accepted forms. -/
theorem checkYShape_no_reject_rank2 :
    checkYShape { shape := [2, 3], data := [1, 2, 3, 4, 5, 6] } =
      .ok { shape := [2, 3], data := [1, 2, 3, 4, 5, 6] } ∧
    wrapperFit (fun a => a) { shape := [2, 3], data := [1, 2, 3, 4, 5, 6] } =
      .ok { shape := [2, 3], data := [1, 2, 3, 4, 5, 6] } := ⟨rfl, rfl⟩

/-- Claim C5 amended: the shape ValueError is raised if and only if the
target rank is neither 1 nor 2 (a rank-2 target with any column count other
than 1 passes through unchanged rather than being rejected), and on that error
path fit returns the error without invoking the model builder, so the result
does not depend on the builder at all. -/
theorem checkYShape_error_iff_rank (y : NDArray) :
    (checkYShape y = .error .valueError ↔
      y.shape.length ≠ 1 ∧ y.shape.length ≠ 2) ∧
    (∀ {α : Type} (buildFit buildFit2 : NDArray → α),
      y.shape.length ≠ 1 → y.shape.length ≠ 2 →
      wrapperFit buildFit y = .error .valueError ∧
      wrapperFit buildFit y = wrapperFit buildFit2 y) := by
  constructor
  · constructor
    · intro he
      match hy : y.shape with
      | [] => simp [hy]
      | [n] => rw [checkYShape_eq_flat y n hy] at he; exact absurd he (by simp)
      | [n, m] =>
          rcases eq_or_ne m 1 with hm | hm
          · rw [hm] at hy
            rw [checkYShape_eq_col y n hy] at he
            exact absurd he (by simp)
          · rw [checkYShape_eq_pass y n m hy hm] at he
            exact absurd he (by simp)
      | a :: b :: c :: rest => simp [hy]
    · intro h
      exact checkYShape_eq_err y h.1 h.2
  · intro α f g h1 h2
    have he := checkYShape_eq_err y h1 h2
    constructor
    · unfold wrapperFit
      rw [he]
    · unfold wrapperFit
      rw [he]

/-- Witness for C5 amended at the rank-0 target. -/
theorem checkYShape_error_iff_rank_witness :
    checkYShape { shape := ([] : List ℕ), data := ([] : List ℚ) } =
      .error PyError.valueError ∧
    wrapperFit (fun a => a) { shape := ([] : List ℕ), data := ([] : List ℚ) } =
      .error PyError.valueError :=
  ⟨(checkYShape_error_iff_rank _).1.mpr ⟨by decide, by decide⟩,
   ((checkYShape_error_iff_rank _).2 (fun a => a) (fun a => a)
      (by decide) (by decide)).1⟩

/-- Counterexample to claim C6 as stated: with configuration entries
soften = 100 and alpha = 0.1, the loss invocation made by score still receives
soften = 160 and alpha = 0.05, so the configured values of all three
hyperparameters are not threaded into the call. -/
theorem scoreLoss_ignores_config :
    scoreLoss (fun _ _ _ _ lam s a => (lam, s, a))
        { lambda_ := some 1, soften := some 100, alpha := some (1 / 10) }
        [] [] [] [] =
      (some (1 : ℚ), (160 : ℚ), (1 / 20 : ℚ)) ∧
    ((160 : ℚ), (1 / 20 : ℚ)) ≠ ((100 : ℚ), (1 / 10 : ℚ)) :=
  ⟨rfl, by decide⟩

/-- Claim C6 amended: score threads only lambda_ from the stored configuration
into the loss invocation (as dict.get, yielding None when absent), while the
soften and alpha arguments are the hardcoded literals 160.0 and 0.05, so two
configurations agreeing on lambda_ produce identical loss invocations whatever
their soften and alpha entries. -/
theorem scoreLoss_args {L : Type}
    (pivenLoss : List ℚ → List ℚ → List ℚ → List ℚ → Option ℚ → ℚ → ℚ → L)
    (p q : ModelParams) (yTrue yPred yPiLow yPiHigh : List ℚ)
    (hlam : p.lambda_ = q.lambda_) :
    scoreLoss pivenLoss p yTrue yPred yPiLow yPiHigh =
      pivenLoss yTrue yPred yPiLow yPiHigh p.lambda_ 160 (1 / 20) ∧
    scoreLoss pivenLoss p yTrue yPred yPiLow yPiHigh =
      scoreLoss pivenLoss q yTrue yPred yPiLow yPiHigh :=
  ⟨rfl, by unfold scoreLoss; rw [hlam]⟩

/-- Witness for C6 amended: two configurations differing only in soften and
alpha yield the same loss invocation. -/
theorem scoreLoss_args_witness :
    scoreLoss (fun _ _ _ _ lam s a => (lam, s, a))
        { lambda_ := some 2, soften := some 100, alpha := some (1 / 10) }
        [] [] [] [] =
      (some (2 : ℚ), (160 : ℚ), (1 / 20 : ℚ)) ∧
    scoreLoss (fun _ _ _ _ lam s a => (lam, s, a))
        { lambda_ := some 2, soften := some 100, alpha := some (1 / 10) }
        [] [] [] [] =
      scoreLoss (fun _ _ _ _ lam s a => (lam, s, a))
        { lambda_ := some 2, soften := some 160, alpha := some (1 / 20) }
        [] [] [] [] :=
  scoreLoss_args (fun _ _ _ _ lam s a => (lam, s, a))
    { lambda_ := some 2, soften := some 100, alpha := some (1 / 10) }
    { lambda_ := some 2, soften := some 160, alpha := some (1 / 20) }
    [] [] [] [] rfl

/-- Claim C7: PivenBaseModel.predict raises NotFittedError exactly when no
model has been produced; once a model exists it returns the blended
prediction and never that error. -/
theorem basePredict_notFitted_iff {α : Type}
    (model : Option (α → List (ℚ × ℚ × ℚ))) (x : α) (rpi : Bool) :
    basePredict model x rpi = .error .notFittedError ↔ model = none := by
  cases model with
  | none => simp [basePredict]
  | some m => simp [basePredict]

/-- Claim C8: loss construction validates the hyperparameters eagerly and
universally: every alpha outside the open interval (0, 1) raises
InvalidHyperparameter, every non-positive soften raises it, a missing lambda_
raises it, and every configuration with alpha in (0, 1), positive soften and a
present lambda_ is accepted; in particular alpha = 0, alpha = 1, soften = 0
and soften = -5 each raise the error while alpha = 0.05 with soften = 160.0
is accepted. -/
theorem mkLossEngine_validation (lambda_ : Option ℚ) (soften alpha : ℚ) :
    (¬(0 < alpha ∧ alpha < 1) →
      mkLossEngine lambda_ soften alpha = .error .invalidHyperparameter) ∧
    (soften ≤ 0 →
      mkLossEngine lambda_ soften alpha = .error .invalidHyperparameter) ∧
    mkLossEngine none soften alpha = .error .invalidHyperparameter ∧
    (∀ lam, 0 < alpha → alpha < 1 → 0 < soften →
      mkLossEngine (some lam) soften alpha =
        .ok { lambda_ := lam, soften := soften, alpha := alpha }) ∧
    mkLossEngine (some 1) 160 0 = .error .invalidHyperparameter ∧
    mkLossEngine (some 1) 160 1 = .error .invalidHyperparameter ∧
    mkLossEngine (some 1) 0 (1 / 20) = .error .invalidHyperparameter ∧
    mkLossEngine (some 1) (-5) (1 / 20) = .error .invalidHyperparameter ∧
    mkLossEngine (some 1) 160 (1 / 20) =
      .ok { lambda_ := 1, soften := 160, alpha := 1 / 20 } := by
  refine ⟨?_, ?_, ?_, ?_, ?_, ?_, ?_, ?_, ?_⟩
  · intro h
    unfold mkLossEngine
    rw [if_neg h]
  · intro hs
    unfold mkLossEngine
    by_cases ha : 0 < alpha ∧ alpha < 1
    · rw [if_pos ha, if_neg (not_lt.mpr hs)]
    · rw [if_neg ha]
  · unfold mkLossEngine
    by_cases ha : 0 < alpha ∧ alpha < 1
    · rw [if_pos ha]
      by_cases hs : 0 < soften
      · rw [if_pos hs]
      · rw [if_neg hs]
    · rw [if_neg ha]
  · intro lam h1 h2 h3
    unfold mkLossEngine
    rw [if_pos ⟨h1, h2⟩, if_pos h3]
  · norm_num [mkLossEngine]
  · norm_num [mkLossEngine]
  · norm_num [mkLossEngine]
  · norm_num [mkLossEngine]
  · norm_num [mkLossEngine]

/-- Witness for C8 at alpha = 2, at soften = -1/2, at a missing lambda_, and
at an accepted configuration. -/
theorem mkLossEngine_validation_witness :
    mkLossEngine (some 1) 160 2 = .error PyError.invalidHyperparameter ∧
    mkLossEngine (some 1) (-1 / 2) (1 / 20) =
      .error PyError.invalidHyperparameter ∧
    mkLossEngine none 160 (1 / 20) = .error PyError.invalidHyperparameter ∧
    mkLossEngine (some 3) 160 (1 / 20) =
      .ok { lambda_ := 3, soften := 160, alpha := 1 / 20 } :=
  ⟨(mkLossEngine_validation (some 1) 160 2).1 (by norm_num),
   (mkLossEngine_validation (some 1) (-1 / 2) (1 / 20)).2.1 (by norm_num),
   (mkLossEngine_validation none 160 (1 / 20)).2.2.1,
   (mkLossEngine_validation (some 3) 160 (1 / 20)).2.2.2.1 3
     (by norm_num) (by norm_num) (by norm_num)⟩

/-- Claim C9: PivenBaseModel.save on an unfitted model raises NotFittedError
with an empty write trace, so no experiment-parameter file and no model file
is created on the error path; on a fitted model both writes happen and the
call succeeds. -/
theorem baseSave_notFitted_atomic {M P : Type} (params : P) :
    baseSave (none : Option M) params = ([], .error .notFittedError) ∧
    ∀ m : M, baseSave (some m) params =
      ([.writeExperimentParamsJson params, .saveModelFiles m], .ok ()) :=
  ⟨rfl, fun _ => rfl⟩

/-- Claim C10: PivenBaseModel.fit performs no fitted-state check: with no
model present it fails with AttributeError from dereferencing None, which is
a different condition from the NotFittedError that predict and save raise. -/
theorem baseFit_no_fitted_check {M X Y R : Type} (fitImpl : M → X → Y → R)
    (x : X) (y : Y) :
    baseFit (none : Option M) fitImpl x y = .error .attributeError ∧
    PyError.attributeError ≠ PyError.notFittedError :=
  ⟨rfl, by decide⟩

end Piven
